import Mathlib

/-!
A verification development for a repository of three Python command-line
agent demos (career mentor, game master, travel designer).  The Python
functions that the claims concern are shallowly embedded below: pure string
manipulation is translated to executable Lean functions over `String`
(`String.data` lists of characters), stateful methods become explicit
state-passing functions, and code that can raise a Python exception
returns an `Option`.
-/

namespace Spec2Proof

/-! ## Python string primitives

Shallow embeddings of the Python `str` operations used by the repository:
`sub in s`, `s.split(sep)` (non-empty separator, non-overlapping leftmost
occurrences), `s.strip()`, `s.lower()`, `s.split()` (whitespace words) and
the builtin `int(s)` conversion. -/

/-- Characters treated as whitespace by Python `str.strip` / `str.split`. -/
def pyIsSpace (c : Char) : Bool :=
  c == ' ' || c == '\t' || c == '\n' || c == '\r' || c == '\x0b' || c == '\x0c'

/-- Occurrence test for a pattern `sh :: st` inside a character list:
`true` iff the pattern is a prefix of some suffix. -/
def strInGo (sh : Char) (st : List Char) : List Char → Bool
  | [] => false
  | c :: rest => (c == sh && st.isPrefixOf rest) || strInGo sh st rest

/-- Python `sub in s` (substring containment; in Python, `"" in s` is `True`). -/
def pyIn (sub s : String) : Bool :=
  match sub.data with
  | [] => true
  | sh :: st => strInGo sh st s.data

/-- Splitting worker: splits a character list at non-overlapping leftmost
occurrences of the separator `sh :: st`.  The `fuel` argument only makes the
recursion structural; any fuel at least the length of the input gives the
Python semantics of `s.split(sep)`. -/
def pySplitGo (sh : Char) (st : List Char) : Nat → List Char → List (List Char)
  | 0, l => [l]
  | _ + 1, [] => [[]]
  | fuel + 1, c :: rest =>
    if c == sh && st.isPrefixOf rest then
      [] :: pySplitGo sh st fuel (rest.drop st.length)
    else
      match pySplitGo sh st fuel rest with
      | [] => [[c]]
      | hd :: tl => (c :: hd) :: tl

/-- Python `s.split(sep)` for a non-empty separator `sep`
(the repository never splits on an empty separator). -/
def pySplit (s sep : String) : List String :=
  match sep.data with
  | [] => [s]
  | sh :: st => (pySplitGo sh st s.data.length s.data).map (fun l => (⟨l⟩ : String))

/-- Python `s.strip()`: remove leading and trailing whitespace. -/
def pyStrip (s : String) : String :=
  ⟨((s.data.dropWhile pyIsSpace).reverse.dropWhile pyIsSpace).reverse⟩

/-- Python `s.lower()` (ASCII case folding, which covers all strings the
repository lowercases). -/
def pyLower (s : String) : String :=
  ⟨s.data.map Char.toLower⟩

/-- Python `s.split()` with no separator: whitespace-delimited words,
empty fields dropped. -/
def pyWords (s : String) : List String :=
  ((s.data.splitOnP pyIsSpace).filter (fun w => !w.isEmpty)).map
    (fun l => (⟨l⟩ : String))

/-- Value of a list of decimal digit characters. -/
def digitsVal (l : List Char) : Nat :=
  l.foldl (fun acc c => acc * 10 + (c.toNat - 48)) 0

/-- Shallow embedding of the Python builtin `int(s)` on a decimal string:
surrounding whitespace is ignored, an optional sign is followed by a
non-empty run of digits; anything else raises `ValueError`, modelled as
`none`.  (The digit-grouping underscores of Python are not modelled; no string
the repository converts contains one.) -/
def pyInt (s : String) : Option Int :=
  let t := ((s.data.dropWhile pyIsSpace).reverse.dropWhile pyIsSpace).reverse
  let signDigits : Int × List Char :=
    match t with
    | '+' :: r => (1, r)
    | '-' :: r => (-1, r)
    | r => (1, r)
  if !signDigits.2.isEmpty && signDigits.2.all Char.isDigit then
    some (signDigits.1 * (digitsVal signDigits.2 : Int))
  else
    none

/-! ## Retry policy (travel-agent/main.py, `TravelDesigner`)

`TravelDesigner.__init__` sets `max_retries = 5` and `retry_delay = 30`.
`call_openai` loops `for attempt in range(self.max_retries)`, calling the
completion client; on an exception it consults `handle_rate_limit`, which
sleeps and returns `True` only for transient-classified error text.  The
client is modelled as a function from the attempt index to a result, and
the embedding additionally returns the number of client calls made and the
list of back-off delays slept, so the theorems can speak about them. -/

structure RetryConfig where
  max_retries : Nat
  retry_delay : Nat
deriving DecidableEq

/-- The configuration built by `TravelDesigner.__init__`. -/
def defaultRetryConfig : RetryConfig := ⟨5, 30⟩

/-- The transient classification of `TravelDesigner.handle_rate_limit`:
`"quota" in error.lower() or "rate" in error.lower() or "credit" in error.lower()`. -/
def is_transient_error (error : String) : Bool :=
  pyIn "quota" (pyLower error) || pyIn "rate" (pyLower error) ||
    pyIn "credit" (pyLower error)

/-- Embedding of `TravelDesigner.handle_rate_limit`: for transient-classified error text
it sleeps `retry_delay * 2 ** attempt` seconds and returns `True`; otherwise
it returns `False` without sleeping.  The second component records the
sleeps performed. -/
def handle_rate_limit (cfg : RetryConfig) (error : String) (attempt : Nat) :
    Bool × List Nat :=
  if is_transient_error error then
    (true, [cfg.retry_delay * 2 ^ attempt])
  else
    (false, [])

/-- Body of the `for attempt in range(max_retries)` loop in `TravelDesigner.call_openai`,
structural on the number of remaining iterations.  Returns the final
result together with the number of client calls made and the delays slept. -/
def call_openai_go {R : Type} (cfg : RetryConfig) (client : Nat → Except String R) :
    Nat → Nat → Except String R × Nat × List Nat
  | _, 0 => (Except.error "Max retries exceeded for API call", 0, [])
  | attempt, remaining + 1 =>
    match client attempt with
    | Except.ok r => (Except.ok r, 1, [])
    | Except.error e =>
      if attempt < cfg.max_retries - 1 then
        match handle_rate_limit cfg e attempt with
        | (true, sl) =>
          let rest := call_openai_go cfg client (attempt + 1) remaining
          (rest.1, rest.2.1 + 1, sl ++ rest.2.2)
        | (false, _) => (Except.error e, 1, [])
      else
        (Except.error e, 1, [])

/-- Embedding of `TravelDesigner.call_openai`: run the retry loop from attempt 0. -/
def call_openai {R : Type} (cfg : RetryConfig) (client : Nat → Except String R) :
    Except String R × Nat × List Nat :=
  call_openai_go cfg client 0 cfg.max_retries

/-! ## Game master (game-master/main.py)

`GameState` (lines 11-21), the orchestrator state of `GameMaster.__init__`
(the mutable `current_agent`/`agent_name` pair is modelled by the active
display name of the active agent), the marker dispatcher `GameMaster.process_response`
(lines 227-280, a chain of `if ... return` blocks) and the body of the
`GameMaster.start_game` input loop (lines 291-316).  The `int(...)`
conversions can raise `ValueError`, so `process_response` returns an
`Option`; `none` models the exception escaping the method. -/

structure GameState where
  player_health : Int
  player_inventory : List String
  current_location : String
  game_over : Bool
  combat_active : Bool
  monster : Option String
  item_discovered : Option String
  last_action : String
deriving DecidableEq

/-- Embedding of `GameState.__init__`. -/
def initGameState : GameState :=
  { player_health := 100
    player_inventory := []
    current_location := "Forest Entrance"
    game_over := false
    combat_active := false
    monster := none
    item_discovered := none
    last_action := "" }

/-- The orchestrator state owned by `GameMaster`: the shared `GameState`
plus the name of the currently active agent (`Narrator`/`Monster`/`Item`),
which stands for the `current_agent`/`agent_name` pair. -/
structure GMState where
  state : GameState
  agent_name : String
deriving DecidableEq

/-- Embedding of `GameMaster.__init__`: fresh state, narrator active. -/
def initGM : GMState := ⟨initGameState, "Narrator"⟩

/-- Embedding of `GameMaster.process_response`: a chain of `if marker in response`
blocks, each of which splits on the marker, applies its state effect and
returns the trimmed prefix — the first block whose marker is present
returns from the method.  The `int(parts[1].strip())` conversions in the
`DAMAGE_PLAYER:`/`HEAL_PLAYER:` blocks raise `ValueError` on non-numeric
payloads, modelled by `none`. -/
def process_response (gm : GMState) (response : String) : Option (GMState × String) :=
  if pyIn "HANDOFF_MONSTER:" response then
    let parts := pySplit response "HANDOFF_MONSTER:"
    some ({ gm with
              state := { gm.state with
                           monster := some (pyStrip (parts.getD 1 ""))
                           combat_active := true }
              agent_name := "Monster" },
          pyStrip (parts.getD 0 ""))
  else if pyIn "HANDOFF_ITEM:" response then
    let parts := pySplit response "HANDOFF_ITEM:"
    some ({ gm with
              state := { gm.state with
                           item_discovered := some (pyStrip (parts.getD 1 "")) }
              agent_name := "Item" },
          pyStrip (parts.getD 0 ""))
  else if pyIn "HANDOFF_NARRATOR" response then
    let parts := pySplit response "HANDOFF_NARRATOR"
    some ({ gm with
              state := { gm.state with
                           combat_active := false
                           monster := none
                           item_discovered := none }
              agent_name := "Narrator" },
          if parts.length > 1 then pyStrip (parts.getD 0 "") else response)
  else if pyIn "UPDATE_LOCATION:" response then
    let parts := pySplit response "UPDATE_LOCATION:"
    some ({ gm with
              state := { gm.state with
                           current_location := pyStrip (parts.getD 1 "") } },
          pyStrip (parts.getD 0 ""))
  else if pyIn "DAMAGE_PLAYER:" response then
    let parts := pySplit response "DAMAGE_PLAYER:"
    match pyInt (pyStrip (parts.getD 1 "")) with
    | none => none
    | some damage =>
      let h := gm.state.player_health - damage
      if h ≤ 0 then
        some ({ gm with
                  state := { gm.state with player_health := 0, game_over := true } },
              pyStrip (parts.getD 0 ""))
      else
        some ({ gm with state := { gm.state with player_health := h } },
              pyStrip (parts.getD 0 ""))
  else if pyIn "HEAL_PLAYER:" response then
    let parts := pySplit response "HEAL_PLAYER:"
    match pyInt (pyStrip (parts.getD 1 "")) with
    | none => none
    | some heal =>
      some ({ gm with
                state := { gm.state with
                             player_health := gm.state.player_health + heal } },
            pyStrip (parts.getD 0 ""))
  else if pyIn "ADD_ITEM:" response then
    let parts := pySplit response "ADD_ITEM:"
    some ({ gm with
              state := { gm.state with
                           player_inventory :=
                             gm.state.player_inventory ++ [pyStrip (parts.getD 1 "")] } },
          pyStrip (parts.getD 0 ""))
  else
    some (gm, response)

/-- Outcome of one pass through the body of the `while` loop of
`GameMaster.start_game`. -/
inductive GMStep where
  | quit : GMStep
  | crashed : GMStep
  | defeated (gm : GMState) (display : String) : GMStep
  | next (gm : GMState) (display : String) : GMStep
deriving DecidableEq

/-- Body of the input loop of `GameMaster.start_game` (lines 294-316): strip the
raw input; `break` if it lowercases to exactly `"quit"`; otherwise record
`last_action`, process the agent `response` through `process_response`,
and `break` afterwards when health is exhausted.  The generated agent
`response` is the completion-client output for the turn, an external
input to the loop body. -/
def game_loop_step (gm : GMState) (raw : String) (response : String) : GMStep :=
  let user_input := pyStrip raw
  if pyLower user_input = "quit" then
    GMStep.quit
  else
    let gm1 := { gm with state := { gm.state with last_action := user_input } }
    match process_response gm1 response with
    | none => GMStep.crashed
    | some (gm2, display) =>
      if gm2.state.player_health ≤ 0 then GMStep.defeated gm2 display
      else GMStep.next gm2 display

/-! ## Career mentor (career-mentor-agent/main.py)

`CareerMentor` keeps `current_agent` (a key into its agent table),
`context` (`career` and `recommendations`) and the `awaiting_selection`
flag.  The `_skill_agent`/`_job_agent` bodies call `.lower()` on
`context["career"]`, which raises `AttributeError` when the career is
`None`, so they return an `Option`. -/

structure MentorState where
  current_agent : String
  career : Option String
  recommendations : List String
  awaiting_selection : Bool
deriving DecidableEq

/-- Embedding of `CareerMentor.__init__`. -/
def initMentor : MentorState :=
  { current_agent := "career"
    career := none
    recommendations := []
    awaiting_selection := false }

/-- The roadmap table of `get_career_roadmap`, in insertion order. -/
def roadmaps : List (String × List String) :=
  [("Software Engineer",
    ["1. Programming fundamentals (Python/Java)",
     "2. Data structures & algorithms",
     "3. Version control (Git)",
     "4. Software design patterns",
     "5. Cloud computing basics",
     "6. CI/CD pipelines"]),
   ("Web Developer",
    ["1. HTML, CSS, JavaScript fundamentals",
     "2. Git & GitHub version control",
     "3. Frontend Frameworks (React, Next.js)",
     "4. Backend Development (Node.js, Express)",
     "5. Databases (MongoDB, PostgreSQL)",
     "6. Deployment (Vercel, Netlify)"]),
   ("Data Scientist",
    ["1. Python, Pandas, NumPy",
     "2. Data Visualization (Matplotlib, Seaborn)",
     "3. Machine Learning (scikit-learn, TensorFlow)",
     "4. SQL for data querying",
     "5. Statistical Analysis",
     "6. Model Deployment"]),
   ("UX Designer",
    ["1. User Research Methods",
     "2. Wireframing & Prototyping",
     "3. UI Design Principles",
     "4. Design Tools (Figma, Sketch)",
     "5. Usability Testing",
     "6. Interaction Design"]),
   ("Cybersecurity Analyst",
    ["1. Network Security Fundamentals",
     "2. Security Protocols & Cryptography",
     "3. Ethical Hacking Techniques",
     "4. Security Compliance Standards",
     "5. Incident Response",
     "6. Threat Intelligence"])]

/-- Embedding of `get_career_roadmap`: first case-insensitive key match wins, else the
fallback message. -/
def get_career_roadmap (career : String) : String :=
  let normalized_career := pyLower career
  match roadmaps.find? (fun kv => pyLower kv.1 = normalized_career) with
  | some kv => "📚 " ++ kv.1 ++ " Skill Roadmap:\n" ++ String.intercalate "\n" kv.2
  | none => "⚠️ No roadmap available for " ++ career

/-- Embedding of `CareerMentor._career_agent`: in awaiting-selection mode, the first
recommended career whose lowercase form occurs in the lowercased input is
selected (switching to the skill agent); no match re-prompts with the same
list.  Otherwise keyword tests on the lowercased input pick a fresh
recommendation list and enter awaiting-selection mode. -/
def career_agent (st : MentorState) (user_input : String) : MentorState × String :=
  if st.awaiting_selection then
    let normalized_input := pyLower user_input
    match st.recommendations.find? (fun career => pyIn (pyLower career) normalized_input) with
    | some career =>
      ({ st with career := some career, awaiting_selection := false, current_agent := "skill" },
       "🚀 Great choice! Exploring " ++ career ++ " now...")
    | none =>
      (st,
       "⚠️ Please select a career from the recommendations:\n" ++
         String.intercalate "\n" (st.recommendations.map (fun c => "- " ++ c)) ++
         "\n\nOr describe your interests for new suggestions.")
  else
    let interests := pyLower user_input
    let careers :=
      if pyIn "data" interests || pyIn "stat" interests || pyIn "analy" interests then
        ["Data Scientist", "Data Analyst"]
      else if pyIn "design" interests || pyIn "ui" interests || pyIn "ux" interests ||
          pyIn "interface" interests then
        ["UX Designer", "Product Designer"]
      else if pyIn "security" interests || pyIn "cyber" interests || pyIn "hack" interests then
        ["Cybersecurity Analyst", "Security Engineer"]
      else if pyIn "web" interests || pyIn "front" interests || pyIn "back" interests then
        ["Web Developer", "Frontend Developer", "Backend Developer"]
      else
        ["Software Engineer", "Full Stack Developer"]
    ({ st with recommendations := careers, awaiting_selection := true },
     "🔍 Based on your interests, I recommend:\n" ++
       String.intercalate "\n" (careers.map (fun c => "- " ++ c)) ++
       "\n\nPlease type the name of a career to explore further")

/-- Embedding of `CareerMentor._skill_agent`: roadmap of the selected career.  `none`
models the `AttributeError` raised when no career has been selected. -/
def skill_agent (st : MentorState) : Option String :=
  st.career.map (fun career =>
    get_career_roadmap career ++ "\n\nType \x27jobs\x27 to see career opportunities")

/-- The job-market table of `_job_agent`, in insertion order:
career ↦ (roles, salary, demand). -/
def job_data : List (String × (List String × String × String)) :=
  [("Software Engineer",
    (["Frontend Developer", "Backend Developer", "Full Stack Engineer", "DevOps Engineer"],
     "$80k-$160k", "High across all industries")),
   ("Web Developer",
    (["Frontend Developer", "Backend Developer", "Full Stack Developer"],
     "$70k-$140k", "Strong in tech and e-commerce")),
   ("Data Scientist",
    (["Data Analyst", "Machine Learning Engineer", "Business Intelligence Specialist"],
     "$90k-$170k", "Growing in tech/finance/healthcare")),
   ("UX Designer",
    (["UI Designer", "UX Researcher", "Product Designer"],
     "$75k-$140k", "Strong in tech/e-commerce")),
   ("Cybersecurity Analyst",
    (["Security Analyst", "Penetration Tester", "Security Architect"],
     "$90k-$150k", "High in finance/government/tech"))]

/-- Embedding of `CareerMentor._job_agent`: first case-insensitive key match, with the
`"Technology Professional"` fallback entry when no key matches.  `none`
models the `AttributeError` raised when no career has been selected. -/
def job_agent (st : MentorState) : Option String :=
  st.career.map (fun career =>
    let normalized_career := pyLower career
    let matched_career :=
      ((job_data.find? (fun kv => pyLower kv.1 = normalized_career)).map (fun kv => kv.1)).getD
        "Technology Professional"
    let data :=
      ((job_data.find? (fun kv => kv.1 = matched_career)).map (fun kv => kv.2)).getD
        (["Various technical roles"], "$70k-$160k (varies by experience)",
         "Strong in technology sector")
    "💼 Job Market for " ++ matched_career ++ ":\n" ++
      "Common Roles: " ++ String.intercalate ", " data.1 ++ "\n" ++
      "Salary Range: " ++ data.2.1 ++ "\n" ++
      "Market Demand: " ++ data.2.2 ++ "\n\n" ++
      "Type \x27new\x27 to explore another career")

/-- Embedding of `CareerMentor._handle_agent_handoff`: in career/awaiting-selection
mode a matching recommendation selects the career and switches to the
skill agent; otherwise the keyword-triggered transitions run. -/
def handle_agent_handoff (st : MentorState) (user_input : String) : MentorState :=
  let ui := pyLower user_input
  let sel : Option MentorState :=
    if st.current_agent = "career" && st.awaiting_selection then
      (st.recommendations.find? (fun career => pyIn (pyLower career) ui)).map
        (fun career =>
          { st with career := some career, awaiting_selection := false,
                    current_agent := "skill" })
    else
      none
  match sel with
  | some st1 => st1
  | none =>
    if st.current_agent = "skill" && (pyIn "job" ui || pyIn "opportunit" ui) then
      { st with current_agent := "job" }
    else if st.current_agent = "job" && pyIn "new" ui then
      { st with current_agent := "career", career := none, awaiting_selection := false }
    else
      st

/-- Embedding of `CareerMentor.run`: apply the handoff logic, then dispatch to the
agent registered under `current_agent` (the career agent receives the
user input; the others take no argument).  `none` models an uncaught
exception. -/
def mentor_run (st : MentorState) (user_input : String) : Option (MentorState × String) :=
  let st1 := handle_agent_handoff st user_input
  if st1.current_agent = "career" then
    some (career_agent st1 user_input)
  else if st1.current_agent = "skill" then
    (skill_agent st1).map (fun r => (st1, r))
  else if st1.current_agent = "job" then
    (job_agent st1).map (fun r => (st1, r))
  else
    none

/-- Body of the career mentor `__main__` input loop: strip the raw
input; when the lowercased input is a member of `["exit", "quit"]` the
loop breaks (modelled by `none`); otherwise the turn is processed through
`CareerMentor.run`. -/
def mentor_loop_step (st : MentorState) (raw : String) :
    Option (Option (MentorState × String)) :=
  let user_input := pyStrip raw
  if ["exit", "quit"].contains (pyLower user_input) then
    none
  else
    some (mentor_run st user_input)

/-! ## Travel designer (travel-agent/main.py)

`TravelDesigner.extract_destination` (lines 381-400) and the
`"Could not determine destination"` guard of `process_request`
(lines 327-330).  The Python `if not message` and `if not destination` tests
test truthiness, so the argument is modelled as `Option String`
(`none` = Python `None`) and the guard treats both `none` and the
empty string as missing. -/

/-- Embedding of `TravelDesigner.extract_destination`: `None`/empty input yields
`None`; a `"Destination:"` marker yields the trimmed same-line payload
after the marker; otherwise the first non-blank trimmed line when it has
at most three words and no digit; otherwise the whole message. -/
def extract_destination : Option String → Option String
  | none => none
  | some message =>
    if message = "" then
      none
    else
      let from_marker : Option String :=
        if pyIn "Destination:" message then
          let parts := pySplit message "Destination:"
          if parts.length > 1 then
            some (pyStrip ((pySplit (parts.getD 1 "") "\n").getD 0 ""))
          else
            none
        else
          none
      match from_marker with
      | some d => some d
      | none =>
        let lines := ((pySplit message "\n").map pyStrip).filter (fun l => !(l == ""))
        match lines with
        | l0 :: _ =>
          if (pyWords l0).length ≤ 3 && !(l0.data.any Char.isDigit) then some l0
          else some message
        | [] => some message

/-- The guard of `process_request` lines 328-330: after the Destination
Specialist produces its final reply, `destination = self.extract_destination(...)`
followed by `if not destination` — Python truthiness, so the error branch
is taken when the extracted value is `None` or the empty string. -/
def could_not_determine_destination (assistant_reply : Option String) : Bool :=
  match extract_destination assistant_reply with
  | none => true
  | some d => decide (d = "")

/-! ## Tool-call loop (game-master `BaseAgent._process_tool_calls` lines
105-144; travel-agent `TravelDesigner.process_tool_calls` lines 242-281
and the surrounding round in `process_request` lines 294-311)

A `ToolCall` carries the provider-chosen correlation id, the function
name and the JSON-encoded argument text.  A transcript message carries a
role, optional text content, and — for the two kinds of messages these
rounds append — either the list of requested tool calls (assistant
message) or the correlation id/name/result (tool message).  Tool
execution itself (`roll_dice`/`generate_event` draw random numbers; the
travel mocks are serialized with `json.dumps`) is abstracted as a
function from function name and argument text to the result string,
which is exactly how the appended messages consume it. -/

structure PyToolCall where
  id : String
  function_name : String
  arguments : String
deriving DecidableEq

structure PyMessage where
  role : String
  content : Option String
  tool_call_id : Option String
  tool_name : Option String
  tool_calls : List PyToolCall
deriving DecidableEq

/-- The assistant message recording the raw tool-call requests
(`content = None`). -/
def assistantToolMsg (tcs : List PyToolCall) : PyMessage :=
  { role := "assistant", content := none, tool_call_id := none,
    tool_name := none, tool_calls := tcs }

/-- The tool-result message appended for one tool call: role `"tool"`,
correlated by `tool_call_id`, carrying the executed result. -/
def toolResultMsg (tc : PyToolCall) (result : String) : PyMessage :=
  { role := "tool", content := some result, tool_call_id := some tc.id,
    tool_name := some tc.function_name, tool_calls := [] }

/-- The dispatch of `BaseAgent._process_tool_calls` lines 130-136: known
function names are executed (the dice/event results come from the random
oracles), an unknown name yields the error string. -/
def gm_call_tool (rollDice genEvent : String → String)
    (function_name function_args : String) : String :=
  if function_name = "roll_dice" then rollDice function_args
  else if function_name = "generate_event" then genEvent function_args
  else "Error: Unknown function " ++ function_name

/-- One round of `BaseAgent._process_tool_calls` (lines 118-144): append
the assistant message carrying the tool calls, then one tool message per
tool call, in order. -/
def gm_process_round (rollDice genEvent : String → String)
    (messages : List PyMessage) (tcs : List PyToolCall) : List PyMessage :=
  (messages ++ [assistantToolMsg tcs]) ++
    tcs.map (fun tc =>
      toolResultMsg tc (gm_call_tool rollDice genEvent tc.function_name tc.arguments))

/-- Embedding of `TravelDesigner.process_tool_calls` (lines 242-281): one tool-result
message per tool call, in order; `runTool` stands for the try/except
dispatch to the mock generators plus `json.dumps` (lines 250-272), whose
output string is all the appended message consumes. -/
def process_tool_calls (runTool : String → String → String)
    (tool_calls : List PyToolCall) : List PyMessage :=
  tool_calls.map (fun tc => toolResultMsg tc (runTool tc.function_name tc.arguments))

/-- The tool-call round of `TravelDesigner.process_request` (lines
294-311): append the assistant message with the tool calls, then extend
the transcript with the outputs of `process_tool_calls`. -/
def travel_process_round (runTool : String → String → String)
    (messages : List PyMessage) (tcs : List PyToolCall) : List PyMessage :=
  (messages ++ [assistantToolMsg tcs]) ++ process_tool_calls runTool tcs

/-! ## Helper lemmas about the string primitives -/

theorem isPrefixOf_append_self (st b : List Char) : st.isPrefixOf (st ++ b) = true := by
  induction st with
  | nil => simp [List.isPrefixOf]
  | cons c cs ih => simp [List.isPrefixOf, ih]

theorem strInGo_false_of_not_mem (sh : Char) (st l : List Char) (h : sh ∉ l) :
    strInGo sh st l = false := by
  induction l with
  | nil => rfl
  | cons c rest ih =>
    have hc : c ≠ sh := fun he => h (he ▸ List.mem_cons_self c rest)
    have hr : sh ∉ rest := fun hm => h (List.mem_cons_of_mem c hm)
    simp [strInGo, ih hr, hc]

theorem strInGo_append (sh : Char) (st a b : List Char) :
    strInGo sh st (a ++ sh :: (st ++ b)) = true := by
  induction a with
  | nil =>
    simp only [List.nil_append, strInGo]
    simp [isPrefixOf_append_self st b]
  | cons c rest ih =>
    rw [List.cons_append]
    simp only [strInGo, ih, Bool.or_true]

theorem pySplitGo_fuel (sh : Char) (st : List Char) :
    ∀ fuel fuel' l, l.length ≤ fuel → l.length ≤ fuel' →
      pySplitGo sh st fuel l = pySplitGo sh st fuel' l := by
  intro fuel
  induction fuel with
  | zero =>
    intro fuel' l hl _
    have : l = [] := List.eq_nil_of_length_eq_zero (Nat.le_zero.mp hl)
    subst this
    cases fuel' <;> rfl
  | succ f ih =>
    intro fuel' l hl hl'
    cases l with
    | nil => cases fuel' <;> rfl
    | cons c rest =>
      cases fuel' with
      | zero => simp at hl'
      | succ f' =>
        simp only [pySplitGo]
        have hrest : rest.length ≤ f := by simp [List.length_cons] at hl; omega
        have hrest' : rest.length ≤ f' := by simp [List.length_cons] at hl'; omega
        have hd : (rest.drop st.length).length ≤ rest.length := by
          rw [List.length_drop]; omega
        by_cases hc : (c == sh && st.isPrefixOf rest) = true
        · rw [if_pos hc, if_pos hc,
            ih f' (rest.drop st.length) (le_trans hd hrest) (le_trans hd hrest')]
        · rw [if_neg hc, if_neg hc, ih f' rest hrest hrest']

theorem pySplitGo_of_strInGo_false (sh : Char) (st : List Char) (fuel : Nat) :
    ∀ l, strInGo sh st l = false → pySplitGo sh st fuel l = [l] := by
  induction fuel with
  | zero => intro l _; rfl
  | succ f ih =>
    intro l h
    cases l with
    | nil => rfl
    | cons c rest =>
      simp only [strInGo, Bool.or_eq_false_iff] at h
      simp [pySplitGo, h.1, ih rest h.2]

theorem pySplitGo_append (sh : Char) (st : List Char) :
    ∀ (a : List Char) (b : List Char) (fuel : Nat), sh ∉ a →
      a.length + (st.length + 1) + b.length ≤ fuel →
      pySplitGo sh st fuel (a ++ sh :: (st ++ b)) = a :: pySplitGo sh st b.length b := by
  intro a
  induction a with
  | nil =>
    intro b fuel _ hf
    cases fuel with
    | zero => simp at hf
    | succ f =>
      simp only [List.nil_append, pySplitGo]
      rw [if_pos (by simp [isPrefixOf_append_self st b])]
      have hdrop : List.drop st.length (st ++ b) = b := List.drop_left st b
      rw [hdrop, pySplitGo_fuel sh st f b.length b (by simp at hf; omega) (le_refl _)]
  | cons c rest ih =>
    intro b fuel hc hf
    cases fuel with
    | zero => simp at hf
    | succ f =>
      have hcs : c ≠ sh := fun he => hc (he ▸ List.mem_cons_self c rest)
      have hrest : sh ∉ rest := fun hm => hc (List.mem_cons_of_mem c hm)
      rw [List.cons_append]
      simp only [pySplitGo]
      rw [if_neg (by simp [hcs])]
      rw [ih b f hrest (by simp [List.length_cons] at hf ⊢; omega)]

theorem pyIn_shape (sep : String) (sh : Char) (st : List Char)
    (hsep : sep.data = sh :: st) (pre tail : String) :
    pyIn sep (pre ++ sep ++ tail) = true := by
  simp only [pyIn, hsep, String.data_append]
  have := strInGo_append sh st pre.data tail.data
  simpa [List.append_assoc] using this

theorem pyIn_false_of_not_mem (sep : String) (sh : Char) (st : List Char)
    (hsep : sep.data = sh :: st) (s : String) (h : sh ∉ s.data) :
    pyIn sep s = false := by
  simp only [pyIn, hsep]
  exact strInGo_false_of_not_mem sh st s.data h

theorem pySplit_of_not_mem (sep : String) (sh : Char) (st : List Char)
    (hsep : sep.data = sh :: st) (s : String) (h : sh ∉ s.data) :
    pySplit s sep = [s] := by
  simp only [pySplit, hsep]
  rw [pySplitGo_of_strInGo_false sh st s.data.length s.data
    (strInGo_false_of_not_mem sh st s.data h)]
  rfl

theorem pySplit_shape (sep : String) (sh : Char) (st : List Char)
    (hsep : sep.data = sh :: st) (pre tail : String) (hpre : sh ∉ pre.data) :
    pySplit (pre ++ sep ++ tail) sep = pre :: pySplit tail sep := by
  simp only [pySplit, hsep, String.data_append]
  simp only [List.append_assoc, List.cons_append]
  have := pySplitGo_append sh st pre.data tail.data
    ((pre.data ++ sh :: (st ++ tail.data)).length) hpre
    (by simp [List.length_append]; omega)
  rw [this]
  rfl

/-! ## Claim theorems -/

/-- C1 (counterexample): the claim says a permanent (non-transient) failure
is retried the same number of times as a transient one before propagating.
On the code this is false at a concrete input: with a client that always
raises `"Incorrect API key provided"` (permanent), `call_openai` makes
exactly 1 call; with one that always raises `"Error 429: rate limit
exceeded"` (transient), it makes 5 — because the boolean result of
`handle_rate_limit` gates the `continue`, not just the sleep. -/
theorem retry_classification_gates_retry_counterexample :
    (call_openai defaultRetryConfig
        (fun _ => Except.error "Incorrect API key provided") :
      Except String Unit × Nat × List Nat).2.1 = 1 ∧
    (call_openai defaultRetryConfig
        (fun _ => Except.error "Error 429: rate limit exceeded") :
      Except String Unit × Nat × List Nat).2.1 = 5 ∧
    (1 : Nat) ≠ 5 := by
  refine ⟨by decide, by decide, by decide⟩

/-- C1 (amended): the transient/permanent classification of
`handle_rate_limit` gates the retry itself, not just the back-off delay: a
permanent-classified error raised on the first call is re-raised
immediately after exactly one client call, with no sleep. -/
theorem retry_permanent_fails_fast {R : Type} (cfg : RetryConfig)
    (client : Nat → Except String R) (e : String)
    (h0 : client 0 = Except.error e)
    (ht : is_transient_error e = false)
    (hm : 1 ≤ cfg.max_retries) :
    call_openai cfg client = (Except.error e, 1, []) := by
  unfold call_openai
  obtain ⟨r, hr⟩ : ∃ r, cfg.max_retries = r + 1 :=
    ⟨cfg.max_retries - 1, by omega⟩
  rw [hr]
  simp only [call_openai_go, h0, handle_rate_limit, ht]
  split <;> simp

/-- C1 (witness): the amended theorem at a concrete permanent error. -/
theorem retry_permanent_fails_fast_witness :
    (fun _ => Except.error "Incorrect API key provided" :
        Nat → Except String Unit) 0 = Except.error "Incorrect API key provided" ∧
    is_transient_error "Incorrect API key provided" = false ∧
    1 ≤ defaultRetryConfig.max_retries ∧
    call_openai defaultRetryConfig
        (fun _ => Except.error "Incorrect API key provided" :
          Nat → Except String Unit) =
      (Except.error "Incorrect API key provided", 1, []) :=
  ⟨rfl, by decide, by decide,
    retry_permanent_fails_fast defaultRetryConfig _ _ rfl (by decide) (by decide)⟩

/-- C4: with a client that always raises a transient-classified error, the
retry policy of `call_openai` makes exactly `max_retries = 5` client calls,
sleeps `retry_delay * 2 ** attempt` seconds (base 30) between consecutive
attempts — delays 30, 60, 120, 240 — and then re-raises the error to the
caller. -/
theorem retry_transient_ceiling {R : Type} (e : String)
    (ht : is_transient_error e = true) :
    (call_openai defaultRetryConfig (fun _ => Except.error e) :
        Except String R × Nat × List Nat) =
      (Except.error e, 5,
       [defaultRetryConfig.retry_delay * 2 ^ 0,
        defaultRetryConfig.retry_delay * 2 ^ 1,
        defaultRetryConfig.retry_delay * 2 ^ 2,
        defaultRetryConfig.retry_delay * 2 ^ 3]) := by
  simp [call_openai, defaultRetryConfig, call_openai_go, handle_rate_limit, ht]

/-- C4 (witness): the retry ceiling at a concrete transient error. -/
theorem retry_transient_ceiling_witness :
    is_transient_error "Error 429: rate limit exceeded" = true ∧
    (call_openai defaultRetryConfig
        (fun _ => Except.error "Error 429: rate limit exceeded") :
        Except String Unit × Nat × List Nat) =
      (Except.error "Error 429: rate limit exceeded", 5,
       [defaultRetryConfig.retry_delay * 2 ^ 0,
        defaultRetryConfig.retry_delay * 2 ^ 1,
        defaultRetryConfig.retry_delay * 2 ^ 2,
        defaultRetryConfig.retry_delay * 2 ^ 3]) :=
  ⟨by decide, retry_transient_ceiling _ (by decide)⟩

/-- C2 (counterexample): the claim says every marker family present in a
text is honored (state effect applied, text removed).  On the code this is
false at a concrete input: a response carrying both `HANDOFF_ITEM:` and
`DAMAGE_PLAYER:` takes the item-handoff early return, so health stays 100
(the claimed damage effect `100 - 30 = 70` is not applied) and the
`DAMAGE_PLAYER:` text survives inside the stored item payload. -/
theorem marker_families_independent_counterexample :
    (process_response initGM "Found a chest!\nHANDOFF_ITEM: Key\nDAMAGE_PLAYER: 30").map
        (fun o => (o.1.state.player_health, o.1.state.item_discovered)) =
      some (100, some "Key\nDAMAGE_PLAYER: 30") ∧
    (100 : Int) ≠ 100 - 30 := by
  refine ⟨by decide, by decide⟩

/-- C2 (amended): `process_response` checks the marker families in a fixed
priority order with an early return — `HANDOFF_MONSTER:`, `HANDOFF_ITEM:`,
`HANDOFF_NARRATOR`, `UPDATE_LOCATION:`, `DAMAGE_PLAYER:`, `HEAL_PLAYER:`,
`ADD_ITEM:` — and only the first family present is honored; markers of any
later family are neither applied nor removed.  Concretely: whenever a
response contains `HANDOFF_ITEM:` and no `HANDOFF_MONSTER:`, the result is
exactly the item handoff — health, inventory, location, combat flag and
`game_over` are untouched, whatever other markers the text contains. -/
theorem marker_first_family_only (gm : GMState) (response : String)
    (h1 : pyIn "HANDOFF_MONSTER:" response = false)
    (h2 : pyIn "HANDOFF_ITEM:" response = true) :
    process_response gm response =
      some ({ gm with
                state := { gm.state with
                             item_discovered :=
                               some (pyStrip ((pySplit response "HANDOFF_ITEM:").getD 1 "")) }
                agent_name := "Item" },
            pyStrip ((pySplit response "HANDOFF_ITEM:").getD 0 "")) := by
  simp [process_response, h1, h2]

/-- C2 (witness): the amended theorem at a response that also carries a
`DAMAGE_PLAYER:` marker. -/
theorem marker_first_family_only_witness :
    pyIn "HANDOFF_MONSTER:" "Found a chest!\nHANDOFF_ITEM: Key\nDAMAGE_PLAYER: 30" = false ∧
    pyIn "HANDOFF_ITEM:" "Found a chest!\nHANDOFF_ITEM: Key\nDAMAGE_PLAYER: 30" = true ∧
    process_response initGM "Found a chest!\nHANDOFF_ITEM: Key\nDAMAGE_PLAYER: 30" =
      some ({ initGM with
                state := { initGM.state with
                             item_discovered :=
                               some (pyStrip ((pySplit
                                 "Found a chest!\nHANDOFF_ITEM: Key\nDAMAGE_PLAYER: 30"
                                 "HANDOFF_ITEM:").getD 1 "")) }
                agent_name := "Item" },
            pyStrip ((pySplit "Found a chest!\nHANDOFF_ITEM: Key\nDAMAGE_PLAYER: 30"
              "HANDOFF_ITEM:").getD 0 "")) :=
  ⟨by decide, by decide, marker_first_family_only initGM _ (by decide) (by decide)⟩

/-- C5: when the `DAMAGE_PLAYER:` branch of `process_response` is reached
(no earlier marker family present) and its payload parses as the integer
`d`, the new health is `max (h - d) 0` and, starting from a running game
(`game_over = false`, as the `start_game` loop guarantees), the `game_over`
flag ends up true exactly when `h - d ≤ 0`. -/
theorem damage_player_clamp (gm : GMState) (response : String) (d : Int)
    (h1 : pyIn "HANDOFF_MONSTER:" response = false)
    (h2 : pyIn "HANDOFF_ITEM:" response = false)
    (h3 : pyIn "HANDOFF_NARRATOR" response = false)
    (h4 : pyIn "UPDATE_LOCATION:" response = false)
    (h5 : pyIn "DAMAGE_PLAYER:" response = true)
    (hp : pyInt (pyStrip ((pySplit response "DAMAGE_PLAYER:").getD 1 "")) = some d)
    (hg : gm.state.game_over = false) :
    ∃ gm1 display, process_response gm response = some (gm1, display) ∧
      gm1.state.player_health = max (gm.state.player_health - d) 0 ∧
      (gm1.state.game_over = true ↔ gm.state.player_health - d ≤ 0) := by
  simp only [process_response, h1, h2, h3, h4, h5, hp]
  simp only [Bool.false_eq_true, if_false, if_true]
  by_cases hle : gm.state.player_health - d ≤ 0
  · refine ⟨_, _, by rw [if_pos hle], ?_, ?_⟩
    · simp [max_eq_right hle]
    · simpa using hle
  · refine ⟨_, _, by rw [if_neg hle], ?_, ?_⟩
    · simp [max_eq_left (by omega : (0 : Int) ≤ gm.state.player_health - d)]
    · simp [hg, hle]

/-- C5 (witness): the two examples of the claim — `DAMAGE_PLAYER: 150` on
health 100 gives health 0 and `game_over = true`; `DAMAGE_PLAYER: 30` on
health 100 gives health 70 and `game_over = false`. -/
theorem damage_player_clamp_witness :
    pyInt (pyStrip ((pySplit "A goblin strikes you. DAMAGE_PLAYER: 150"
      "DAMAGE_PLAYER:").getD 1 "")) = some 150 ∧
    (∃ gm1 display,
      process_response initGM "A goblin strikes you. DAMAGE_PLAYER: 150" =
        some (gm1, display) ∧
      gm1.state.player_health = max (initGM.state.player_health - 150) 0 ∧
      (gm1.state.game_over = true ↔ initGM.state.player_health - 150 ≤ 0)) ∧
    (∃ gm2 display,
      process_response initGM "Ouch. DAMAGE_PLAYER: 30" = some (gm2, display) ∧
      gm2.state.player_health = max (initGM.state.player_health - 30) 0 ∧
      (gm2.state.game_over = true ↔ initGM.state.player_health - 30 ≤ 0)) :=
  ⟨by decide,
   damage_player_clamp initGM _ 150 (by decide) (by decide) (by decide) (by decide)
     (by decide) (by decide) (by decide),
   damage_player_clamp initGM _ 30 (by decide) (by decide) (by decide) (by decide)
     (by decide) (by decide) (by decide)⟩

/-- C9: a `DAMAGE_PLAYER:`/`HEAL_PLAYER:` marker with a non-numeric payload
is not validated: the `int(...)` conversion raises (modelled by `none`, the
exception escaping `process_response`), so no display text is returned and
the malformed payload is not handled as a recoverable parse failure. -/
theorem malformed_marker_payload_raises :
    process_response initGM "You take a hit! DAMAGE_PLAYER: lots" = none ∧
    process_response initGM "A warm glow. HEAL_PLAYER: much" = none := by
  refine ⟨by decide, by decide⟩

/-- Helper for the tool-round invariant: a block of tool-result messages
built by mapping over the tool calls has one message per call, every
message has role `"tool"`, and — when the correlation ids are distinct —
the `tool_call_id` of each message matches exactly one call. -/
theorem toolResults_correlate (f : PyToolCall → String) (tcs : List PyToolCall)
    (hnd : (tcs.map PyToolCall.id).Nodup) :
    (tcs.map (fun tc => toolResultMsg tc (f tc))).length = tcs.length ∧
    ∀ r ∈ tcs.map (fun tc => toolResultMsg tc (f tc)),
      r.role = "tool" ∧ ∃! tc, tc ∈ tcs ∧ r.tool_call_id = some tc.id := by
  refine ⟨List.length_map tcs _, ?_⟩
  intro r hr
  obtain ⟨tc0, htc0, rfl⟩ := List.mem_map.mp hr
  refine ⟨rfl, tc0, ⟨htc0, rfl⟩, ?_⟩
  rintro tc1 ⟨htc1, hid⟩
  simp only [toolResultMsg, Option.some.injEq] at hid
  exact List.inj_on_of_nodup_map hnd htc1 htc0 hid.symm

/-- C3: after a round that carries tool calls — in the game master
`BaseAgent._process_tool_calls` and in the travel designer
`process_request`/`process_tool_calls` alike — the transcript is extended
by the assistant message recording the requests followed by a block of
tool-result messages whose count equals the number of tool-call requests
in that assistant message, and (the requests carrying distinct correlation
ids) the `tool_call_id` of each result matches exactly one request. -/
theorem tool_call_round_invariant (rollDice genEvent : String → String)
    (runTool : String → String → String)
    (messages : List PyMessage) (tcs : List PyToolCall)
    (hnd : (tcs.map PyToolCall.id).Nodup) :
    (∃ results,
      gm_process_round rollDice genEvent messages tcs =
        (messages ++ [assistantToolMsg tcs]) ++ results ∧
      results.length = (assistantToolMsg tcs).tool_calls.length ∧
      ∀ r ∈ results, r.role = "tool" ∧
        ∃! tc, tc ∈ (assistantToolMsg tcs).tool_calls ∧ r.tool_call_id = some tc.id) ∧
    (∃ results,
      travel_process_round runTool messages tcs =
        (messages ++ [assistantToolMsg tcs]) ++ results ∧
      results.length = (assistantToolMsg tcs).tool_calls.length ∧
      ∀ r ∈ results, r.role = "tool" ∧
        ∃! tc, tc ∈ (assistantToolMsg tcs).tool_calls ∧ r.tool_call_id = some tc.id) := by
  constructor
  · obtain ⟨hlen, hcorr⟩ := toolResults_correlate
      (fun tc => gm_call_tool rollDice genEvent tc.function_name tc.arguments) tcs hnd
    exact ⟨_, rfl, hlen, hcorr⟩
  · obtain ⟨hlen, hcorr⟩ := toolResults_correlate
      (fun tc => runTool tc.function_name tc.arguments) tcs hnd
    exact ⟨_, rfl, hlen, hcorr⟩

/-- C3 (witness): the invariant at a concrete two-request round (one known
tool, one unknown tool) with distinct correlation ids. -/
theorem tool_call_round_invariant_witness :
    (([⟨"call_1", "roll_dice", ""⟩, ⟨"call_2", "mystery_tool", ""⟩] :
        List PyToolCall).map PyToolCall.id).Nodup ∧
    ((∃ results,
      gm_process_round (fun _ => "Dice rolls: [3] (Total: 3)")
          (fun _ => "A hidden trap triggers!") []
          [⟨"call_1", "roll_dice", ""⟩, ⟨"call_2", "mystery_tool", ""⟩] =
        ([] ++ [assistantToolMsg [⟨"call_1", "roll_dice", ""⟩,
          ⟨"call_2", "mystery_tool", ""⟩]]) ++ results ∧
      results.length = (assistantToolMsg [⟨"call_1", "roll_dice", ""⟩,
        ⟨"call_2", "mystery_tool", ""⟩]).tool_calls.length ∧
      ∀ r ∈ results, r.role = "tool" ∧
        ∃! tc, tc ∈ (assistantToolMsg [⟨"call_1", "roll_dice", ""⟩,
          ⟨"call_2", "mystery_tool", ""⟩]).tool_calls ∧
          r.tool_call_id = some tc.id) ∧
    (∃ results,
      travel_process_round (fun _ _ => "[]") []
          [⟨"call_1", "roll_dice", ""⟩, ⟨"call_2", "mystery_tool", ""⟩] =
        ([] ++ [assistantToolMsg [⟨"call_1", "roll_dice", ""⟩,
          ⟨"call_2", "mystery_tool", ""⟩]]) ++ results ∧
      results.length = (assistantToolMsg [⟨"call_1", "roll_dice", ""⟩,
        ⟨"call_2", "mystery_tool", ""⟩]).tool_calls.length ∧
      ∀ r ∈ results, r.role = "tool" ∧
        ∃! tc, tc ∈ (assistantToolMsg [⟨"call_1", "roll_dice", ""⟩,
          ⟨"call_2", "mystery_tool", ""⟩]).tool_calls ∧
          r.tool_call_id = some tc.id)) :=
  ⟨by decide,
   tool_call_round_invariant (fun _ => "Dice rolls: [3] (Total: 3)")
     (fun _ => "A hidden trap triggers!") (fun _ _ => "[]") []
     [⟨"call_1", "roll_dice", ""⟩, ⟨"call_2", "mystery_tool", ""⟩] (by decide)⟩

/-- C6 (counterexample): the claim says the stored payload keeps only the
portion of the suffix up to the next line break.  On the code this is false
at a concrete input: the game master `HANDOFF_MONSTER:` handler stores
`parts[1].strip()` with no line-break truncation, so the text on the line
after the monster name ends up inside the stored payload. -/
theorem payload_linebreak_counterexample :
    (process_response initGM "HANDOFF_MONSTER: Dragon\nIt roars").map
        (fun o => o.1.state.monster) = some (some "Dragon\nIt roars") ∧
    ("Dragon\nIt roars" : String) ≠ "Dragon" := by
  refine ⟨by decide, by decide⟩

set_option maxHeartbeats 2000000 in
/-- C6 (amended): only the travel designer `extract_destination` keeps
the payload up to the next line break; the game master marker handlers
store the entire trimmed suffix after the marker, subsequent lines
included.  For any text of the shape `pre ++ MARKER ++ payload ++ "\n" ++
rest` (with no marker-initial capital in the surrounding pieces and a
single-line payload), `extract_destination` yields the trimmed `payload`
alone, while `process_response` on the `HANDOFF_MONSTER:` version stores
the trimmed `payload ++ "\n" ++ rest`. -/
theorem payload_linebreak_behavior (gm : GMState) (pre payload rest : String)
    (hD1 : ('D' : Char) ∉ pre.data) (hD2 : ('D' : Char) ∉ payload.data)
    (hD3 : ('D' : Char) ∉ rest.data)
    (hH1 : ('H' : Char) ∉ pre.data) (hH2 : ('H' : Char) ∉ payload.data)
    (hH3 : ('H' : Char) ∉ rest.data)
    (hn : ('\n' : Char) ∉ payload.data) :
    extract_destination (some (pre ++ "Destination:" ++ (payload ++ "\n" ++ rest))) =
      some (pyStrip payload) ∧
    ∃ gm1, process_response gm (pre ++ "HANDOFF_MONSTER:" ++ (payload ++ "\n" ++ rest)) =
      some (gm1, pyStrip pre) ∧
      gm1.state.monster = some (pyStrip (payload ++ "\n" ++ rest)) := by
  have hDdata : ("Destination:" : String).data = 'D' :: ("estination:" : String).data := rfl
  have hHdata : ("HANDOFF_MONSTER:" : String).data =
    'H' :: ("ANDOFF_MONSTER:" : String).data := rfl
  have htlD : ('D' : Char) ∉ (payload ++ "\n" ++ rest).data := by
    simp only [String.data_append, List.mem_append]
    push_neg
    exact ⟨⟨hD2, by decide⟩, hD3⟩
  have htlH : ('H' : Char) ∉ (payload ++ "\n" ++ rest).data := by
    simp only [String.data_append, List.mem_append]
    push_neg
    exact ⟨⟨hH2, by decide⟩, hH3⟩
  have hsplitD : pySplit (pre ++ "Destination:" ++ (payload ++ "\n" ++ rest))
      "Destination:" = [pre, payload ++ "\n" ++ rest] := by
    rw [pySplit_shape "Destination:" 'D' _ hDdata pre _ hD1,
      pySplit_of_not_mem "Destination:" 'D' _ hDdata _ htlD]
  have hsplitH : pySplit (pre ++ "HANDOFF_MONSTER:" ++ (payload ++ "\n" ++ rest))
      "HANDOFF_MONSTER:" = [pre, payload ++ "\n" ++ rest] := by
    rw [pySplit_shape "HANDOFF_MONSTER:" 'H' _ hHdata pre _ hH1,
      pySplit_of_not_mem "HANDOFF_MONSTER:" 'H' _ hHdata _ htlH]
  have hsplitNL : pySplit (payload ++ "\n" ++ rest) "\n" = payload :: pySplit rest "\n" :=
    pySplit_shape "\n" '\n' [] rfl payload rest hn
  have hinD : pyIn "Destination:" (pre ++ "Destination:" ++ (payload ++ "\n" ++ rest)) =
      true := pyIn_shape "Destination:" 'D' _ hDdata pre _
  have hinH : pyIn "HANDOFF_MONSTER:"
      (pre ++ "HANDOFF_MONSTER:" ++ (payload ++ "\n" ++ rest)) = true :=
    pyIn_shape "HANDOFF_MONSTER:" 'H' _ hHdata pre _
  have hne : pre ++ "Destination:" ++ (payload ++ "\n" ++ rest) ≠ "" := by
    intro h
    have := congrArg String.data h
    simp [String.data_append] at this
  constructor
  · simp only [extract_destination, if_neg hne, hinD, if_true, hsplitD]
    simp [hsplitNL]
  · simp only [process_response, hinH, if_true, hsplitH]
    exact ⟨_, rfl, rfl⟩

/-- C6 (witness): the amended theorem at concrete pieces — the destination
payload is truncated at the line break, the monster payload is not. -/
theorem payload_linebreak_behavior_witness :
    (('D' : Char) ∉ ("Go east. " : String).data ∧
     ('D' : Char) ∉ (" Paris " : String).data ∧
     ('D' : Char) ∉ ("It roars!" : String).data) ∧
    extract_destination (some ("Go east. " ++ "Destination:" ++
        (" Paris " ++ "\n" ++ "It roars!"))) = some (pyStrip " Paris ") ∧
    (∃ gm1, process_response initGM ("Go east. " ++ "HANDOFF_MONSTER:" ++
        (" Paris " ++ "\n" ++ "It roars!")) = some (gm1, pyStrip "Go east. ") ∧
      gm1.state.monster = some (pyStrip (" Paris " ++ "\n" ++ "It roars!"))) := by
  have h := payload_linebreak_behavior initGM "Go east. " " Paris " "It roars!"
    (by decide) (by decide) (by decide) (by decide) (by decide) (by decide) (by decide)
  exact ⟨⟨by decide, by decide, by decide⟩, h.1, h.2⟩

/-- C7: while the career agent is in awaiting-selection mode, a user input
containing one of the recommended options as a case-insensitive substring
records that option as the selected career, leaves the sub-mode and
transitions to the skill state (whose roadmap response is returned); an
input matching no option re-prompts with the same recommendation list and
stays in awaiting-selection mode with the state unchanged. -/
theorem selection_submode (st : MentorState) (input : String)
    (h1 : st.current_agent = "career") (h2 : st.awaiting_selection = true) :
    (∀ c, st.recommendations.find? (fun career => pyIn (pyLower career) (pyLower input)) =
        some c →
      mentor_run st input =
        some ({ st with career := some c, awaiting_selection := false,
                        current_agent := "skill" },
              get_career_roadmap c ++ "\n\nType \x27jobs\x27 to see career opportunities")) ∧
    (st.recommendations.find? (fun career => pyIn (pyLower career) (pyLower input)) =
        none →
      mentor_run st input =
        some (st,
          "⚠️ Please select a career from the recommendations:\n" ++
            String.intercalate "\n" (st.recommendations.map (fun c => "- " ++ c)) ++
            "\n\nOr describe your interests for new suggestions.")) := by
  constructor
  · intro c hfind
    simp [mentor_run, handle_agent_handoff, h1, h2, hfind, skill_agent]
  · intro hfind
    simp [mentor_run, handle_agent_handoff, career_agent, h1, h2, hfind]

/-- C7 (witness): the selection sub-mode at the recommendation list
`["Data Scientist", "Data Analyst"]` — an input containing
`"data scientist"` selects `"Data Scientist"` and moves to the skill
state; `"tell me more"` re-prompts and stays. -/
theorem selection_submode_witness :
    (⟨"career", none, ["Data Scientist", "Data Analyst"], true⟩ :
        MentorState).current_agent = "career" ∧
    (["Data Scientist", "Data Analyst"].find?
        (fun career => pyIn (pyLower career)
          (pyLower "count me in for data scientist please")) =
      some "Data Scientist") ∧
    mentor_run ⟨"career", none, ["Data Scientist", "Data Analyst"], true⟩
        "count me in for data scientist please" =
      some ({ (⟨"career", none, ["Data Scientist", "Data Analyst"], true⟩ :
                MentorState) with
                career := some "Data Scientist", awaiting_selection := false,
                current_agent := "skill" },
            get_career_roadmap "Data Scientist" ++
              "\n\nType \x27jobs\x27 to see career opportunities") ∧
    mentor_run ⟨"career", none, ["Data Scientist", "Data Analyst"], true⟩
        "tell me more" =
      some (⟨"career", none, ["Data Scientist", "Data Analyst"], true⟩,
        "⚠️ Please select a career from the recommendations:\n" ++
          String.intercalate "\n"
            ((["Data Scientist", "Data Analyst"] : List String).map (fun c => "- " ++ c)) ++
          "\n\nOr describe your interests for new suggestions.") :=
  ⟨rfl, by decide,
   (selection_submode ⟨"career", none, ["Data Scientist", "Data Analyst"], true⟩
      "count me in for data scientist please" rfl rfl).1 "Data Scientist" (by decide),
   (selection_submode ⟨"career", none, ["Data Scientist", "Data Analyst"], true⟩
      "tell me more" rfl rfl).2 (by decide)⟩

/-- C8 (counterexample): the claim says that in every chat-style session an
input equal (case-insensitively) to "exit" or "quit" ends the session.  On
the code this is false at a concrete input: the game master loop only
breaks on `"quit"`, so the input `"exit"` is processed as a regular turn
(it is even recorded as `last_action`). -/
theorem exit_quit_counterexample :
    game_loop_step initGM "exit" "Hello." =
      GMStep.next ⟨⟨100, [], "Forest Entrance", false, false, none, none, "exit"⟩,
        "Narrator"⟩ "Hello." ∧
    GMStep.next ⟨⟨100, [], "Forest Entrance", false, false, none, none, "exit"⟩,
        "Narrator"⟩ "Hello." ≠ GMStep.quit := by
  refine ⟨by decide, by decide⟩

/-- C8 (amended): the career mentor loop ends the session on an input
that (stripped and lowercased) equals "exit" or "quit"; the game master
loop ends only on "quit" — there "exit" is handled as an ordinary turn. -/
theorem exit_quit_session_end (st : MentorState) (gm : GMState)
    (raw_q raw_e response : String)
    (hq : pyLower (pyStrip raw_q) = "quit")
    (he : pyLower (pyStrip raw_e) = "exit") :
    mentor_loop_step st raw_q = none ∧
    mentor_loop_step st raw_e = none ∧
    game_loop_step gm raw_q response = GMStep.quit := by
  refine ⟨?_, ?_, ?_⟩
  · simp [mentor_loop_step, hq]
  · simp [mentor_loop_step, he]
  · simp [game_loop_step, hq]

/-- C8 (witness): the amended theorem at concrete inputs with surrounding
whitespace and mixed case. -/
theorem exit_quit_session_end_witness :
    pyLower (pyStrip " Quit ") = "quit" ∧
    pyLower (pyStrip "  EXIT") = "exit" ∧
    mentor_loop_step initMentor " Quit " = none ∧
    mentor_loop_step initMentor "  EXIT" = none ∧
    game_loop_step initGM " Quit " "Hello." = GMStep.quit :=
  ⟨by decide, by decide,
   (exit_quit_session_end initMentor initGM " Quit " "  EXIT" "Hello."
      (by decide) (by decide)).1,
   (exit_quit_session_end initMentor initGM " Quit " "  EXIT" "Hello."
      (by decide) (by decide)).2.1,
   (exit_quit_session_end initMentor initGM " Quit " "  EXIT" "Hello."
      (by decide) (by decide)).2.2⟩

/-- C10 (counterexample): the claim says the "Could not determine
destination" branch is reachable only for a `None` or empty reply.  On the
code this is false at a concrete input: the non-empty reply
`"Destination:\nParis"` extracts to the empty string (the same-line payload
of the marker is blank), which Python truthiness treats as missing, so the
error branch is taken. -/
theorem destination_error_counterexample :
    could_not_determine_destination (some "Destination:\nParis") = true ∧
    ("Destination:\nParis" : String) ≠ "" := by
  refine ⟨by decide, by decide⟩

/-- C10 (amended): `extract_destination` indeed returns a non-`None` string
for every non-empty reply (marker payload, first-line fallback, or the
whole reply); but the returned string can be empty — exactly then the
`if not destination` error branch of `process_request` fires on a
non-empty reply. -/
theorem extract_destination_total (m : String) (hm : m ≠ "") :
    (∃ d, extract_destination (some m) = some d) ∧
    (could_not_determine_destination (some m) = true →
      extract_destination (some m) = some "") := by
  have hsome : ∃ d, extract_destination (some m) = some d := by
    simp only [extract_destination, if_neg hm]
    split
    · exact ⟨_, rfl⟩
    · split
      · split
        · exact ⟨_, rfl⟩
        · exact ⟨_, rfl⟩
      · exact ⟨_, rfl⟩
  refine ⟨hsome, ?_⟩
  intro herr
  obtain ⟨d, hd⟩ := hsome
  unfold could_not_determine_destination at herr
  rw [hd] at herr
  have : d = "" := of_decide_eq_true herr
  rw [hd, this]

/-- C10 (witness): the amended theorem at a concrete non-empty reply. -/
theorem extract_destination_total_witness :
    ("Paris" : String) ≠ "" ∧
    ((∃ d, extract_destination (some "Paris") = some d) ∧
     (could_not_determine_destination (some "Paris") = true →
       extract_destination (some "Paris") = some "")) :=
  ⟨by decide, extract_destination_total "Paris" (by decide)⟩

end Spec2Proof
